import Mathlib

/-
Verification development for the praw sample (comment.py, redditor.py,
listing.py and their unit tests).  Python values flowing through the
library are modelled by a small JSON type; Python exceptions are modelled
by an explicit error kind carried in `Except`.  Functions are translated
from the source files; helpers of this repository that are not part of
the sample (RedditBase.__init__, RedditBase._url_parts, the Objector,
equality and hash of RedditBase) are modelled from the specification and
say so in their doc comments.
-/

namespace Praw

/-- A JSON-like value, the shape of raw data handled by the library.  Python
numbers are modelled as integers (no claim involves floats). -/
inductive JSON where
  | null : JSON
  | bool : Bool → JSON
  | num : Int → JSON
  | str : String → JSON
  | arr : List JSON → JSON
  | obj : List (String × JSON) → JSON

/-- Python truthiness of a JSON value: None, False, 0, empty string, empty
list and empty dict are falsy, everything else is truthy. -/
def truthyJ : JSON → Bool
  | .null => false
  | .bool b => b
  | .num n => n != 0
  | .str s => s != ""
  | .arr l => !l.isEmpty
  | .obj l => !l.isEmpty

/-- First-match association lookup; dictionaries are modelled as association
lists where an assignment conses a new binding, so the first match is the
most recent write. -/
def alookup {α : Type} : List (String × α) → String → Option α
  | [], _ => none
  | (k, v) :: rest, key => if k == key then some v else alookup rest key

/-- The keys of an association list. -/
def akeys {α : Type} (l : List (String × α)) : List String :=
  l.map (fun kv => kv.1)

/-- `dict.update(upd)`: every binding of `upd` wins over `base`. -/
def dictUpdate {α : Type} (base upd : List (String × α)) : List (String × α) :=
  upd ++ base

/-- The kinds of Python exception the modelled code can raise.  `invalidURL`
is the InvalidURL subclass of ClientException; `clientError` covers the other
ClientException uses; `assertError` models a failing `assert` statement. -/
inductive PrawError where
  | typeError : String → PrawError
  | valueError : String → PrawError
  | invalidURL : String → PrawError
  | clientError : String → PrawError
  | assertError : String → PrawError
  | attributeError : String → PrawError
  | indexError : String → PrawError
deriving DecidableEq, Repr

/-- Whether a computation ended in a TypeError-kind usage error. -/
def isTypeError {α : Type} : Except PrawError α → Bool
  | .error (.typeError _) => true
  | _ => false

/-- Whether a computation ended in the specific count-checking usage error
carrying the given message. -/
def isUsageError {α : Type} (msg : String) : Except PrawError α → Bool
  | .error (.typeError m) => m == msg
  | _ => false

/-- Number of provided (non-None) arguments, for the
`sum(1 for value in (...) if value is not None)` pattern. -/
def optCount {α : Type} : Option α → Nat
  | none => 0
  | some _ => 1

/-- Truthiness of an optional Python string: None and the empty string are
falsy. -/
def truthyS : Option String → Bool
  | none => false
  | some s => s != ""

/-- Modelled from the spec: the ValueError raised by the base initializer
when the identity attribute was not populated (section 3 of the spec, the
malformed-identity ValueError kind; exercised by test_construct_failure). -/
def invalidStrFieldMsg (field : String) : String :=
  "An invalid value was specified for " ++ field ++ "."

/-- The state of a Redditor object: the attributes its initializer and
`__setattr__` can populate.  `fullnameAttr` models the `_fullname` slot and
`attrs` the remaining `__dict__` entries. -/
structure RedditorObj where
  name : Option JSON := none
  fullnameAttr : Option JSON := none
  subreddit : Option JSON := none
  listingUseSort : Bool := true
  attrs : List (String × JSON) := []

/-- `Redditor.__setattr__` (redditor.py): the `subreddit` attribute is
objectified into a UserSubreddit when truthy; UserSubreddit itself is outside
the sample, so the wrap is modelled as storing the payload. -/
def redditorSetattr (obj : RedditorObj) (kv : String × JSON) : RedditorObj :=
  if kv.1 == "name" then { obj with name := some kv.2 }
  else if kv.1 == "subreddit" then { obj with subreddit := some kv.2 }
  else { obj with attrs := kv :: obj.attrs }

/-- Modelled from the spec: the identity check closing RedditBase.__init__
(the base class is not in the sample) fails with the ValueError kind when
neither the STR_FIELD `name` nor the extra `_fullname` attribute was
populated (spec section 3: malformed-identity errors are
ValueError-class). -/
def redditorStrFieldCheck (obj : RedditorObj) : Except PrawError RedditorObj :=
  if obj.name.isSome then .ok obj
  else if obj.fullnameAttr.isSome then .ok obj
  else .error (.valueError (invalidStrFieldMsg "name"))

/-- Modelled from the spec: RedditBase.__init__ for a Redditor merges the
raw-data payload through `__setattr__` and then runs the identity check. -/
def redditorBaseInit (obj : RedditorObj) :
    Option (List (String × JSON)) → Except PrawError RedditorObj
  | none => redditorStrFieldCheck obj
  | some kvs => redditorStrFieldCheck (kvs.foldl redditorSetattr obj)

/-- The message of the Redditor count-checking usage error
(redditor.py line 149). -/
def redditorCountMsg : String :=
  "Exactly one of name, fullname, or _data must be provided."

/-- The message of the Comment count-checking usage error
(comment.py line 152). -/
def commentCountMsg : String :=
  "Exactly one of id, url, or _data must be provided."

/-- `Redditor.__init__` (redditor.py lines 132-160): exactly one of `name`,
`fullname`, `_data` may be provided, a truthy `_data` must be a mapping
holding the key `name` (the `assert`), then the truthy identity argument is
stored and the base initializer runs. -/
def redditorInit (name fullname : Option JSON)
    (d : Option (List (String × JSON))) : Except PrawError RedditorObj :=
  if optCount name + optCount fullname + optCount d != 1 then
    .error (.typeError redditorCountMsg)
  else
    let dataTruthy := match d with
      | some kvs => !kvs.isEmpty
      | none => false
    let dataHasName := match d with
      | some kvs => (alookup kvs "name").isSome
      | none => false
    if dataTruthy && !dataHasName then
      .error (.assertError "Please file a bug with PRAW.")
    else
      let obj : RedditorObj := {}
      let obj := if truthyJ (name.getD .null) then { obj with name := name }
        else if truthyJ (fullname.getD .null) then { obj with fullnameAttr := fullname }
        else obj
      redditorBaseInit obj d

/-- Python `data == "[deleted]"`: only the string value equals the
deleted-user sentinel. -/
def eqDeletedStr : JSON → Bool
  | .str s => s == "[deleted]"
  | _ => false

/-- Python `value == ""`: only the empty string value equals the empty
string. -/
def eqEmptyStr : JSON → Bool
  | .str s => s == ""
  | _ => false

/-- A Python value passed as an optional argument: a Python `None` argument
is not provided (`value is not None` counts it as zero), any other value
is. -/
def providedArg : JSON → Option JSON
  | .null => none
  | v => some v

/-- `Redditor.from_data` (redditor.py lines 69-74): `None` for the literal
deleted-user sentinel, otherwise `cls(reddit, data)` — a Redditor built with
the raw value passed as its `name` argument, where a `None` value counts as
an argument that was not provided. -/
def Redditor.from_data (data : JSON) : Except PrawError (Option RedditorObj) :=
  if eqDeletedStr data then .ok none
  else (redditorInit (providedArg data) none none).map some

/-- Split a character list at every occurrence of `c`, like Python
`str.split(sep)`: the result is never empty and an empty input yields one
empty group. -/
def splitChar (c : Char) : List Char → List (List Char)
  | [] => [[]]
  | x :: xs =>
    match splitChar c xs with
    | [] => [[]]
    | g :: gs => if x == c then [] :: g :: gs else (x :: g) :: gs

/-- The characters following the first scheme separator of a URL, or `none`
when the URL has no scheme separator at all. -/
def afterScheme : List Char → Option (List Char)
  | ':' :: '/' :: '/' :: rest => some rest
  | _ :: xs => afterScheme xs
  | [] => none

/-- Modelled from the spec: `RedditBase._url_parts` is not in the sample.
Per the spec (sections 7 and 8) a URL without a recognizable structure fails
with the malformed-identity InvalidURL kind; otherwise the URL path is
stripped of trailing slashes and split on slashes.  Query strings do not
occur in the claims and are not modelled. -/
def urlParts (url : String) : Except PrawError (List String) :=
  match afterScheme url.toList with
  | none => .error (.invalidURL url)
  | some rest =>
    let netloc := rest.takeWhile (fun c => c != '/')
    if netloc.isEmpty then .error (.invalidURL url)
    else
      let path := rest.dropWhile (fun c => c != '/')
      let stripped := (path.reverse.dropWhile (fun c => c == '/')).reverse
      .ok ((splitChar '/' stripped).map (fun cs => String.mk cs))

/-- `Comment.id_from_url` (comment.py lines 63-74): locate the first
`comments` path segment (a missing segment raises InvalidURL), require it to
sit exactly at offset `len(parts) - 4` (checked over the integers, as Python
subtraction is not truncated), and return the last segment. -/
def Comment.id_from_url (url : String) : Except PrawError String :=
  match urlParts url with
  | .error e => .error e
  | .ok parts =>
    match parts.findIdx? (fun p => p == "comments") with
    | none => .error (.invalidURL url)
    | some commentIndex =>
      if (parts.length : Int) - 4 != (commentIndex : Int) then
        .error (.invalidURL url)
      else
        .ok (parts.getLastD "")

/-- The state of a Comment object built by the initializer.  `repliesRaw`
models the `_replies` slot (raw objectified children), `author` is set to
`some none` when the author resolved to the deleted-user `None`. -/
structure CommentObj where
  id : Option JSON := none
  author : Option (Option RedditorObj) := none
  repliesRaw : List JSON := []
  subreddit : Option JSON := none
  fetched : Bool := false
  attrs : List (String × JSON) := []

/-- Modelled from the spec: the Objector is not in the sample.  Per spec
section 4.1 a mapping holding a nested data mapping with a children array is
a Listing whose children are returned; the recursive objectification of each
child is not needed by any claim and the children are kept raw.  Any other
shape makes the `.children` access fail with the AttributeError kind. -/
def childrenValue : Option JSON → Except PrawError (List JSON)
  | some (.arr cs) => .ok cs
  | _ => .error (.attributeError "children")

/-- The children array of a listing data mapping. -/
def childrenOfData : Option JSON → Except PrawError (List JSON)
  | some (.obj dkvs) => childrenValue (alookup dkvs "children")
  | _ => .error (.attributeError "children")

/-- Dispatch on the outer shape. -/
def objectifyListingChildren : JSON → Except PrawError (List JSON)
  | .obj kvs => childrenOfData (alookup kvs "data")
  | _ => .error (.attributeError "children")

/-- `Comment.__setattr__` (comment.py lines 165-178): `author` runs through
`Redditor.from_data`, `replies` becomes the empty list for the empty string
and otherwise the objectified children stored under `_replies`, and
`subreddit` is objectified into a lazy Subreddit (outside the sample,
modelled as storing the payload). -/
def commentSetattr (obj : CommentObj) (kv : String × JSON) :
    Except PrawError CommentObj :=
  if kv.1 == "author" then
    match Redditor.from_data kv.2 with
    | .error e => .error e
    | .ok r => .ok { obj with author := some r }
  else if kv.1 == "replies" then
    if eqEmptyStr kv.2 then .ok { obj with repliesRaw := [] }
    else
      match objectifyListingChildren kv.2 with
      | .error e => .error e
      | .ok cs => .ok { obj with repliesRaw := cs }
  else if kv.1 == "subreddit" then .ok { obj with subreddit := some kv.2 }
  else if kv.1 == "id" then .ok { obj with id := some kv.2 }
  else .ok { obj with attrs := kv :: obj.attrs }

/-- Merge a raw-data payload into a comment attribute by attribute, stopping
at the first failing assignment. -/
def applyCommentAttrs (obj : CommentObj) :
    List (String × JSON) → Except PrawError CommentObj
  | [] => .ok obj
  | kv :: rest =>
    match commentSetattr obj kv with
    | .error e => .error e
    | .ok o => applyCommentAttrs o rest

/-- Modelled from the spec: RedditBase.__init__ for a Comment (the base
class is not in the sample).  The raw-data payload is merged through
`Comment.__setattr__`; if the STR_FIELD `id` is still unset the ValueError
kind is raised (spec section 3, exercised by test_construct_failure). -/
def commentStrFieldCheck (obj : CommentObj) : Except PrawError CommentObj :=
  if obj.id.isSome then .ok obj
  else .error (.valueError (invalidStrFieldMsg "id"))

/-- The raw-data merge of the base initializer followed by the identity
check. -/
def commentBaseInit (obj : CommentObj) :
    Option (List (String × JSON)) → Except PrawError CommentObj
  | none => commentStrFieldCheck obj
  | some kvs =>
    match applyCommentAttrs obj kvs with
    | .error e => .error e
    | .ok o => commentStrFieldCheck o

/-- The identity branch of `Comment.__init__` (comment.py lines 154-162): a
truthy `id` is stored, a truthy `url` goes through `id_from_url`, and
otherwise the object counts as already fetched. -/
def commentIdentityStep (id url : Option String) :
    Except PrawError CommentObj :=
  if truthyS id then .ok { id := some (.str (id.getD "")), fetched := false }
  else if truthyS url then
    (Comment.id_from_url (url.getD "")).map
      (fun i => { id := some (.str i), fetched := false })
  else .ok { fetched := true }

/-- `Comment.__init__` (comment.py lines 143-163): exactly one of `id`,
`url`, `_data` may be provided; the identity branch runs and then the base
initializer merges the raw data. -/
def commentInit (id url : Option String)
    (d : Option (List (String × JSON))) : Except PrawError CommentObj :=
  if optCount id + optCount url + optCount d != 1 then
    .error (.typeError commentCountMsg)
  else
    match commentIdentityStep id url with
    | .error e => .error e
    | .ok obj => commentBaseInit obj d

/-- `str(comment)`: the value of the STR_FIELD `id` (a string in every
payload the claims touch). -/
def commentStr (c : CommentObj) : String :=
  match c.id with
  | some (.str s) => s
  | _ => ""

/-- The case-folded form of a string, character by character (Python
`str.lower()` restricted to the identifier alphabet). -/
def lowerStr (s : String) : String :=
  String.mk (s.toList.map Char.toLower)

/-- Modelled from the spec: RedditBase equality is not in the sample.  Two
entities of the same type are equal iff their identifier strings compare
case-insensitively equal (spec section 3). -/
def commentEq (c1 c2 : CommentObj) : Bool :=
  lowerStr (commentStr c1) == lowerStr (commentStr c2)

/-- Modelled from the spec: RedditBase hashing is not in the sample.  The
hash is based solely on the type and the case-folded identifier string; the
opaque Python string hash is modelled by the key itself, an injective
stand-in. -/
def commentHashKey (c : CommentObj) : String × String :=
  ("Comment", lowerStr (commentStr c))

/-- A materialized node of a returned comment tree: a Comment with its
attribute payload and materialized replies, or a MoreComments placeholder
(whose payload also carries an id, but which has no materialized replies). -/
inductive CTree where
  | comment : String → List (String × JSON) → List CTree → CTree
  | more : String → CTree

/-- The id attribute of a tree node. -/
def CTree.nid : CTree → String
  | .comment i _ _ => i
  | .more i => i

/-- The attribute payload of a tree node. -/
def CTree.cattrs : CTree → List (String × JSON)
  | .comment _ a _ => a
  | .more _ => []

/-- The replies of a tree node. -/
def CTree.creplies : CTree → List CTree
  | .comment _ _ rs => rs
  | .more _ => []

mutual
/-- Every node of a tree reachable by the refresh traversal: the node
itself, and for a Comment all nodes of its replies. -/
def CTree.allNodes : CTree → List CTree
  | .comment i a rs => .comment i a rs :: allNodesL rs
  | .more i => [.more i]

/-- All reachable nodes of a list of trees, in order. -/
def allNodesL : List CTree → List CTree
  | [] => []
  | t :: ts => t.allNodes ++ allNodesL ts
end

mutual
/-- The Comment nodes of a tree (MoreComments placeholders excluded). -/
def CTree.commentNodes : CTree → List CTree
  | .comment i a rs => .comment i a rs :: commentNodesL rs
  | .more _ => []

/-- The Comment nodes of a list of trees. -/
def commentNodesL : List CTree → List CTree
  | [] => []
  | t :: ts => t.commentNodes ++ commentNodesL ts
end

mutual
/-- One visit of the refresh search loop (comment.py lines 295-300) at a
single node: the popped node is checked against the wanted id first; a
Comment then has its replies extended onto the stack, which the loop pops
from the end, so the replies are searched back to front before anything
below them. -/
def searchT (sid : String) (t : CTree) : Option CTree :=
  match t with
  | .more i => if i == sid then some (.more i) else none
  | .comment i a rs =>
    if i == sid then some (.comment i a rs) else searchB sid rs

/-- The refresh search over a list of trees.  The Python loop seeds the
queue with the returned list and pops from the end, so the last element is
searched first; this is that pop-from-end (LIFO) order written as structural
recursion. -/
def searchB (sid : String) : List CTree → Option CTree
  | [] => none
  | t :: ts =>
    match searchB sid ts with
    | some r => some r
    | none => searchT sid t
end

/-- A Submission together with its `_comments_by_id` index (fullname to
already-materialized comment). -/
structure SubmissionM where
  id : String
  comments_by_id : List (String × CTree) := []

/-- The fullname of a submission: the `t3` kind prefix from the static kind
table (spec section 6) followed by the id. -/
def SubmissionM.fullname (s : SubmissionM) : String := "t3_" ++ s.id

/-- The fullname of a comment id: the `t1` kind prefix from the static kind
table (spec section 6) followed by the id. -/
def commentFullname (i : String) : String := "t1_" ++ i

mutual
/-- The `Comment.submission` setter (comment.py lines 135-141) applied to a
materialized comment tree: the comment registers itself in the submission
index under its fullname, then assigns the same submission to every
materialized reply.  A MoreComments placeholder only stores the plain
attribute and registers nothing. -/
def assignSubmission (sub : SubmissionM) (t : CTree) : SubmissionM :=
  match t with
  | .comment i a rs =>
    assignSubmissionL
      { sub with
        comments_by_id := (commentFullname i, .comment i a rs) :: sub.comments_by_id }
      rs
  | .more _ => sub

/-- The setter applied to each reply in order. -/
def assignSubmissionL (sub : SubmissionM) : List CTree → SubmissionM
  | [] => sub
  | t :: ts => assignSubmissionL (assignSubmission sub t) ts
end

/-- The result of `Comment.parent`: the owning submission, a comment already
materialized in the submission index, or a newly constructed shallow comment
scoped to the same submission. -/
inductive ParentResult where
  | ofSubmission : SubmissionM → ParentResult
  | existing : CTree → ParentResult
  | shallow : CommentObj → SubmissionM → ParentResult

/-- Python `s.split(sep, 1)[1]`: everything after the first separator, or
`none` (an IndexError) when the separator does not occur. -/
def splitFirstRest (sep : Char) (s : String) : Option String :=
  match splitChar sep s.toList with
  | [] => none
  | [_] => none
  | _ :: rest => some (String.intercalate (String.mk [sep]) (rest.map String.mk))

/-- `Comment.parent` (comment.py lines 253-262) for a comment whose
`parent_id` attribute and owning submission are materialized: the body only
reads local state, so the model is a pure function making no request.  The
owning submission is returned when `parent_id` equals its fullname; an
already-materialized comment is returned when `parent_id` is in the index;
otherwise a shallow Comment is constructed from `parent_id` stripped of its
type prefix and scoped to the same submission. -/
def commentParent (parent_id : String) (sub : SubmissionM) :
    Except PrawError ParentResult :=
  if parent_id == sub.fullname then .ok (.ofSubmission sub)
  else
    match alookup sub.comments_by_id parent_id with
    | some c => .ok (.existing c)
    | none =>
      match splitFirstRest '_' parent_id with
      | none => .error (.indexError "list index out of range")
      | some rid =>
        (commentInit (some rid) none none).map (fun c => .shallow c sub)

/-- `Comment.MISSING_COMMENT_MESSAGE` (comment.py line 60). -/
def missingCommentMessage : String :=
  "This comment does not appear to be in the comment tree"

/-- The local state `Comment.refresh` reads: the comment id, the current
`__dict__` payload, whether `_submission` is set, and the optional
`reply_limit`, `reply_sort` and `context` attributes. -/
structure RefreshSelf where
  id : String
  dict : List (String × JSON) := []
  hasSubmission : Bool := false
  reply_limit : Option Int := none
  reply_sort : Option String := none
  context : Option String := none

/-- The query parameters of the refresh request (comment.py lines 284-289):
a context of 100, then the reply limit and sort when set. -/
def refreshParams (reply_limit : Option Int) (reply_sort : Option String) :
    List (String × JSON) :=
  [("context", .num 100)]
    ++ (match reply_limit with
        | some l => [("limit", .num l)]
        | none => [])
    ++ (match reply_sort with
        | some s => [("sort", .str s)]
        | none => [])

/-- The path of the refresh request (comment.py lines 278-282): the context
permalink up to its query string when set, else the submission path (the
`comments/{id}/` template of the API path table, which is outside the
sample) extended with `_/` and the comment id. -/
def refreshPath (context : Option String) (submissionId selfId : String) :
    String :=
  match context with
  | some ctx => String.mk ((splitChar '?' ctx.toList).headD [])
  | none => "comments/" ++ submissionId ++ "/" ++ "_/" ++ selfId

/-- What refresh produces: the node found in the returned tree, the merged
`__dict__` (the found attributes win), whether the merge kept the comment's
own `_submission` (it is kept exactly when it was set), and the submission
index after re-parenting every returned tree. -/
structure RefreshOutcome where
  found : CTree
  mergedDict : List (String × JSON)
  keepOwnSubmission : Bool
  newIndex : SubmissionM

/-- `Comment.refresh` (comment.py lines 290-311) applied to the objectified
comment list returned by the request: an empty list raises the missing
comment ClientException, the LIFO search failing raises it as well, and on
success the found attributes are merged into self (preserving an existing
`_submission`) and every returned tree is re-parented to the owning
submission. -/
def refresh (self : RefreshSelf) (sub : SubmissionM)
    (comment_list : List CTree) : Except PrawError RefreshOutcome :=
  if comment_list.isEmpty then .error (.clientError missingCommentMessage)
  else
    match searchB self.id comment_list with
    | none => .error (.clientError missingCommentMessage)
    | some c =>
      .ok { found := c
            mergedDict := dictUpdate self.dict c.cattrs
            keepOwnSubmission := self.hasSubmission
            newIndex := assignSubmissionL sub comment_list }

/-- ModNoteListing state (listing.py lines 48-59): the optional
`has_next_page` and `end_cursor` attributes of the page payload. -/
structure ModNoteListing where
  has_next_page : Option JSON := none
  end_cursor : Option JSON := none

/-- `ModNoteListing.after`: `None` when `getattr(self, "has_next_page",
True)` is falsy, else `getattr(self, "end_cursor", None)`. -/
def ModNoteListing.after (l : ModNoteListing) : Option JSON :=
  if !truthyJ (l.has_next_page.getD (.bool true)) then none
  else l.end_cursor

/-- A modmail conversation as the listing sees it: something with an id. -/
structure Conversation where
  id : String

/-- ModmailConversationsListing state (listing.py lines 68-83). -/
structure ModmailConversationsListing where
  conversations : List Conversation

/-- `ModmailConversationsListing.after`: the id of the last conversation,
or `None` when indexing the empty list raises IndexError. -/
def ModmailConversationsListing.after (l : ModmailConversationsListing) :
    Option String :=
  (l.conversations.getLast?).map (fun c => c.id)

/-- An immutable API error record: the (error_type, message, field) triple
(spec section 3). -/
structure RedditErrorItem where
  error_type : String
  message : Option String
  field : Option String
deriving DecidableEq, Repr

/-- The aggregate exception carrying every item parsed from one error
envelope. -/
structure RedditAPIException where
  items : List RedditErrorItem
deriving DecidableEq, Repr

/-- A JSON string as an optional string; null (and anything that is not a
string) carries no text. -/
def jsonOptStr : JSON → Option String
  | .str s => some s
  | _ => none

/-- One element of the errors array as an error item: the wire shape is a
[type, message, field-or-null] triple (spec section 6); anything else would
fail item construction with the TypeError kind. -/
def parseErrorItem (j : JSON) : Except PrawError RedditErrorItem :=
  match j with
  | .arr [.str t, m, f] => .ok ⟨t, jsonOptStr m, jsonOptStr f⟩
  | _ => .error (.typeError "error item is not a triple")

/-- Every element of the errors array as an error item. -/
def parseErrorItems : List JSON → Except PrawError (List RedditErrorItem)
  | [] => .ok []
  | j :: rest =>
    match parseErrorItem j with
    | .error e => .error e
    | .ok item =>
      match parseErrorItems rest with
      | .error e => .error e
      | .ok items => .ok (item :: items)

/-- Modelled from the spec: `Objector.parse_error` is not in the sample.
Per spec section 4.2 it inspects raw["json"]["errors"]; missing or
irrelevant shapes return null and never raise, an empty-but-present errors
array raises the no-error ClientException, and a populated array yields a
RedditAPIException holding one item per reported triple. -/
def parse_error (data : JSON) : Except PrawError (Option RedditAPIException) :=
  match data with
  | .obj kvs =>
    match alookup kvs "json" with
    | some (.obj jkvs) =>
      match alookup jkvs "errors" with
      | some (.arr errs) =>
        if errs.isEmpty then
          .error (.clientError "successful error response")
        else
          match parseErrorItems errs with
          | .error e => .error e
          | .ok items => .ok (some ⟨items⟩)
      | _ => .ok none
    | _ => .ok none
  | _ => .ok none

/-- The JSON wire form of one (type, message, field) error triple. -/
def mkErrorItemJSON (e : String × Option String × Option String) : JSON :=
  .arr [.str e.1, (e.2.1.map JSON.str).getD .null, (e.2.2.map JSON.str).getD .null]

/-- An error envelope holding the given triples. -/
def mkErrorEnvelope (errs : List (String × Option String × Option String)) :
    JSON :=
  .obj [("json", .obj [("errors", .arr (errs.map mkErrorItemJSON))])]

/-- The error item a wire triple denotes. -/
def mkErrorItem (e : String × Option String × Option String) :
    RedditErrorItem :=
  ⟨e.1, e.2.1, e.2.2⟩

/-! ### Helper lemmas -/

theorem alookup_append_some {α : Type} (upd base : List (String × α))
    (k : String) (v : α) (h : alookup upd k = some v) :
    alookup (upd ++ base) k = some v := by
  induction upd with
  | nil => simp [alookup] at h
  | cons kv rest ih =>
    simp only [alookup, List.cons_append] at h ⊢
    by_cases hk : kv.1 == k
    · simpa [hk] using h
    · simp only [hk] at h ⊢
      exact ih h

theorem alookup_append_none {α : Type} (upd base : List (String × α))
    (k : String) (h : alookup upd k = none) :
    alookup (upd ++ base) k = alookup base k := by
  induction upd with
  | nil => rfl
  | cons kv rest ih =>
    simp only [alookup, List.cons_append] at h ⊢
    by_cases hk : kv.1 == k
    · simp [hk] at h
    · simp only [hk] at h ⊢
      exact ih h

/-! ### C7: listing cursor extraction -/

/-- C7: cursor extraction is a function of the listing state alone:
`ModNoteListing.after` is `None` whenever `has_next_page` is false and is
otherwise the `end_cursor` attribute (or `None` when absent), and
`ModmailConversationsListing.after` is `None` exactly when the conversations
list is empty and otherwise the id of the last conversation. -/
theorem c7_listing_cursor_extraction :
    ∀ (l : ModNoteListing) (m : ModmailConversationsListing),
      (l.has_next_page = some (.bool false) → l.after = none) ∧
      (truthyJ (l.has_next_page.getD (.bool true)) = true →
        l.after = l.end_cursor) ∧
      (m.after = none ↔ m.conversations = []) ∧
      (∀ c, m.conversations.getLast? = some c → m.after = some c.id) := by
  intro l m
  refine ⟨?_, ?_, ?_, ?_⟩
  · intro h
    simp [ModNoteListing.after, h, truthyJ]
  · intro h
    simp [ModNoteListing.after, h]
  · constructor
    · intro h
      rcases hl : m.conversations.getLast? with _ | c
      · exact List.getLast?_eq_none_iff.mp hl
      · simp [ModmailConversationsListing.after, hl] at h
    · intro h
      simp [ModmailConversationsListing.after, h]
  · intro c h
    simp [ModmailConversationsListing.after, h]

/-- Witness for C7 at concrete listings. -/
theorem c7_listing_cursor_extraction_witness :
    (ModNoteListing.after ⟨some (.bool false), some (.str "cur")⟩ = none) ∧
    (ModNoteListing.after ⟨some (.bool true), some (.str "cur")⟩ =
      some (.str "cur")) ∧
    (ModmailConversationsListing.after ⟨[]⟩ = none) ∧
    (ModmailConversationsListing.after ⟨[⟨"c1"⟩, ⟨"c2"⟩]⟩ = some "c2") := by
  refine ⟨?_, ?_, ?_, ?_⟩
  · exact (c7_listing_cursor_extraction ⟨some (.bool false), some (.str "cur")⟩
      ⟨[]⟩).1 rfl
  · exact (c7_listing_cursor_extraction ⟨some (.bool true), some (.str "cur")⟩
      ⟨[]⟩).2.1 rfl
  · exact (c7_listing_cursor_extraction ⟨none, none⟩ ⟨[]⟩).2.2.1.mpr rfl
  · exact (c7_listing_cursor_extraction ⟨none, none⟩
      ⟨[⟨"c1"⟩, ⟨"c2"⟩]⟩).2.2.2 ⟨"c2"⟩ rfl

/-! ### C3: parse_error -/

theorem parseErrorItem_mk (e : String × Option String × Option String) :
    parseErrorItem (mkErrorItemJSON e) = .ok (mkErrorItem e) := by
  rcases e with ⟨t, m, f⟩
  cases m <;> cases f <;> rfl

theorem parseErrorItems_mk
    (errs : List (String × Option String × Option String)) :
    parseErrorItems (errs.map mkErrorItemJSON) = .ok (errs.map mkErrorItem) := by
  induction errs with
  | nil => rfl
  | cons e rest ih =>
    simp only [List.map_cons, parseErrorItems, parseErrorItem_mk, ih]

/-- C3: parse_error returns null for inputs lacking an error envelope and
never raises on them; an envelope with a present-but-empty errors array
raises the ClientException kind; an envelope holding n triples yields a
RedditAPIException aggregating exactly the n corresponding immutable
(error_type, message, field) records. -/
theorem c3_parse_error :
    parse_error (.obj []) = .ok none ∧
    parse_error (.arr []) = .ok none ∧
    parse_error (.obj [("asdf", .num 1)]) = .ok none ∧
    (∀ l : List JSON, parse_error (.arr l) = .ok none) ∧
    (∀ kvs, alookup kvs "json" = none → parse_error (.obj kvs) = .ok none) ∧
    parse_error (.obj [("json", .obj [("errors", .arr [])])]) =
      .error (.clientError "successful error response") ∧
    (∀ errs : List (String × Option String × Option String), errs ≠ [] →
      parse_error (mkErrorEnvelope errs) = .ok (some ⟨errs.map mkErrorItem⟩) ∧
      (errs.map mkErrorItem).length = errs.length) := by
  refine ⟨rfl, rfl, rfl, fun l => rfl, ?_, rfl, ?_⟩
  · intro kvs h
    simp [parse_error, h]
  · intro errs h
    rcases errs with _ | ⟨e, rest⟩
    · exact absurd rfl h
    · constructor
      · have hm := parseErrorItems_mk (e :: rest)
        simp only [List.map_cons] at hm
        simp [parse_error, mkErrorEnvelope, alookup, hm]
      · simp

/-- Witness for C3 at the two-error envelope of the unit test. -/
theorem c3_parse_error_witness :
    parse_error (mkErrorEnvelope
      [("USER_REQUIRED", some "Please log in to do that.", none),
       ("NO_SUBJECT", some "please enter a subject", some "subject")]) =
      .ok (some ⟨[⟨"USER_REQUIRED", some "Please log in to do that.", none⟩,
                  ⟨"NO_SUBJECT", some "please enter a subject", some "subject"⟩]⟩) := by
  have h := (c3_parse_error.2.2.2.2.2.2
    [("USER_REQUIRED", some "Please log in to do that.", none),
     ("NO_SUBJECT", some "please enter a subject", some "subject")]
    (by simp)).1
  simpa [mkErrorItem] using h

/-! ### C2: id_from_url -/

/-- C2: the four permalink variants of the unit test (with and without a
trailing slash, with and without a subreddit segment) all extract
`cklhv0f`; and whenever the parsed path either lacks a `comments` segment or
has its first `comments` segment at an offset other than `len(parts) - 4`,
extraction fails with the malformed-identity InvalidURL kind. -/
theorem c2_id_from_url :
    Comment.id_from_url "http://reddit.com/comments/2gmzqe/_/cklhv0f/" =
      .ok "cklhv0f" ∧
    Comment.id_from_url "https://reddit.com/comments/2gmzqe/_/cklhv0f" =
      .ok "cklhv0f" ∧
    Comment.id_from_url
        "http://www.reddit.com/r/redditdev/comments/2gmzqe/_/cklhv0f/" =
      .ok "cklhv0f" ∧
    Comment.id_from_url
        "https://www.reddit.com/r/redditdev/comments/2gmzqe/_/cklhv0f" =
      .ok "cklhv0f" ∧
    (∀ url parts, urlParts url = .ok parts →
      ((¬ "comments" ∈ parts) ∨
        (∃ i, parts.findIdx? (fun p => p == "comments") = some i ∧
          (parts.length : Int) - 4 ≠ (i : Int))) →
      Comment.id_from_url url = .error (.invalidURL url)) := by
  refine ⟨rfl, rfl, rfl, rfl, ?_⟩
  intro url parts hparts hbad
  rcases hbad with hnm | ⟨i, hfind, hne⟩
  · have hnone : parts.findIdx? (fun p => p == "comments") = none := by
      rw [List.findIdx?_eq_none_iff]
      intro x hx
      rcases hxe : (x == "comments") with _ | _
      · rfl
      · exact absurd ((beq_iff_eq.mp hxe) ▸ hx) hnm
    simp [Comment.id_from_url, hparts, hnone]
  · have hb : ((parts.length : Int) - 4 != (i : Int)) = true := by
      simpa [bne_iff_ne] using hne
    simp [Comment.id_from_url, hparts, hfind, hb]

/-- Witness for C2 at a URL whose `comments` segment sits at the wrong
offset. -/
theorem c2_id_from_url_witness :
    Comment.id_from_url "http://reddit.com/comments/2gmzqe" =
      .error (.invalidURL "http://reddit.com/comments/2gmzqe") := by
  refine c2_id_from_url.2.2.2.2 "http://reddit.com/comments/2gmzqe"
    ["", "comments", "2gmzqe"] rfl (Or.inr ⟨1, rfl, by decide⟩)

/-! ### C4: case-insensitive equality and hash -/

theorem commentInit_id_payload (s : String) :
    commentInit none none (some [("id", .str s)]) =
      .ok { id := some (.str s), fetched := true } := rfl

/-- C4: comments constructed from identifier strings differing only in
letter case are equal and share a hash key; comments whose identifiers
differ other than by case are unequal and have distinct hash keys. -/
theorem c4_case_insensitive_equality_hash :
    ∀ s1 s2 : String,
      ∃ c1 c2,
        commentInit none none (some [("id", .str s1)]) = .ok c1 ∧
        commentInit none none (some [("id", .str s2)]) = .ok c2 ∧
        (lowerStr s1 = lowerStr s2 →
          commentEq c1 c2 = true ∧ commentHashKey c1 = commentHashKey c2) ∧
        (lowerStr s1 ≠ lowerStr s2 →
          commentEq c1 c2 = false ∧ commentHashKey c1 ≠ commentHashKey c2) := by
  intro s1 s2
  refine ⟨_, _, commentInit_id_payload s1, commentInit_id_payload s2, ?_, ?_⟩
  · intro h
    constructor
    · simp [commentEq, commentStr, h]
    · simp [commentHashKey, commentStr, h]
  · intro h
    constructor
    · simp [commentEq, commentStr]
      exact h
    · simp [commentHashKey, commentStr]
      exact h

/-- Witness for C4 at the identifier triple of the unit tests. -/
theorem c4_case_insensitive_equality_hash_witness :
    (∃ c1 c2, commentInit none none (some [("id", .str "dummy1")]) = .ok c1 ∧
      commentInit none none (some [("id", .str "Dummy1")]) = .ok c2 ∧
      commentEq c1 c2 = true ∧ commentHashKey c1 = commentHashKey c2) ∧
    (∃ c1 c3, commentInit none none (some [("id", .str "dummy1")]) = .ok c1 ∧
      commentInit none none (some [("id", .str "dummy3")]) = .ok c3 ∧
      commentEq c1 c3 = false ∧ commentHashKey c1 ≠ commentHashKey c3) := by
  constructor
  · obtain ⟨c1, c2, h1, h2, hcase, _⟩ :=
      c4_case_insensitive_equality_hash "dummy1" "Dummy1"
    exact ⟨c1, c2, h1, h2, (hcase (by decide)).1, (hcase (by decide)).2⟩
  · obtain ⟨c1, c3, h1, h3, _, hdiff⟩ :=
      c4_case_insensitive_equality_hash "dummy1" "dummy3"
    exact ⟨c1, c3, h1, h3, (hdiff (by decide)).1, (hdiff (by decide)).2⟩

/-! ### C9: Redditor.from_data -/

theorem eqDeletedStr_iff (d : JSON) :
    eqDeletedStr d = true ↔ d = .str "[deleted]" := by
  cases d <;> simp [eqDeletedStr]

/-- Counterexample for C9: the empty-string input is not the deleted-user
sentinel, yet from_data does not return a constructed Redditor for it — the
base identity check fails with the ValueError kind instead. -/
theorem c9_from_data_counterexample :
    JSON.str "" ≠ JSON.str "[deleted]" ∧
    Redditor.from_data (.str "") =
      .error (.valueError (invalidStrFieldMsg "name")) := by
  constructor
  · intro h
    injection h with h2
    exact absurd h2 (by decide)
  · rfl

/-- from_data on a truthy, non-sentinel value: the value is a provided,
truthy name argument, so a Redditor carrying it as name is returned. -/
theorem from_data_truthy (data : JSON) (ht : truthyJ data = true)
    (hd : eqDeletedStr data = false) :
    Redditor.from_data data = .ok (some { name := some data }) := by
  have hp : providedArg data = some data := by
    cases data <;> first | rfl | (exfalso; simp [truthyJ] at ht)
  simp [Redditor.from_data, hd, hp, redditorInit, redditorBaseInit,
    redditorStrFieldCheck, ht, optCount, Except.map]

/-- from_data on a falsy value other than None: the name branch is skipped
and the base identity check fails with the ValueError kind. -/
theorem from_data_falsy (data : JSON) (hf : truthyJ data = false)
    (hnull : data ≠ .null) :
    Redditor.from_data data =
      .error (.valueError (invalidStrFieldMsg "name")) := by
  have hp : providedArg data = some data := by
    cases data <;> first | rfl | exact absurd rfl hnull
  have hd : eqDeletedStr data = false := by
    cases data <;> try rfl
    rename_i s
    simp [truthyJ] at hf
    subst hf
    rfl
  simp [Redditor.from_data, hd, hp, redditorInit, redditorBaseInit,
    redditorStrFieldCheck, optCount, hf, Except.map]

/-- C9 as amended: from_data returns null exactly when the raw input equals
the deleted-user sentinel; every other truthy input returns a Redditor
whose name is that input; a falsy input other than None fails the base
identity check with the ValueError kind, while None is an unprovided name
argument and raises the nested Redditor count TypeError; and assigning the
sentinel to a Comment author attribute stores null as the author. -/
theorem c9_from_data_amended :
    (∀ data, Redditor.from_data data = .ok none ↔ data = .str "[deleted]") ∧
    (∀ data, truthyJ data = true → data ≠ .str "[deleted]" →
      Redditor.from_data data = .ok (some { name := some data })) ∧
    (∀ data, truthyJ data = false → data ≠ .null →
      Redditor.from_data data =
        .error (.valueError (invalidStrFieldMsg "name"))) ∧
    Redditor.from_data .null = .error (.typeError redditorCountMsg) ∧
    (∀ obj, commentSetattr obj ("author", .str "[deleted]") =
      .ok { obj with author := some none }) := by
  refine ⟨?_, ?_, ?_, rfl, fun obj => rfl⟩
  · intro data
    constructor
    · intro h
      by_cases hd : eqDeletedStr data = true
      · exact (eqDeletedStr_iff data).mp hd
      · exfalso
        have hne : eqDeletedStr data = false := by simpa using hd
        rcases hres : redditorInit (providedArg data) none none with e | r
        · simp [Redditor.from_data, hne, hres, Except.map] at h
        · simp [Redditor.from_data, hne, hres, Except.map] at h
    · intro h
      subst h
      rfl
  · intro data ht hne
    have hd : eqDeletedStr data = false := by
      rcases hdt : eqDeletedStr data with _ | _
      · rfl
      · exact absurd ((eqDeletedStr_iff data).mp hdt) hne
    exact from_data_truthy data ht hd
  · intro data hf hnull
    exact from_data_falsy data hf hnull

/-- Witness for C9 at a truthy username and a falsy non-None value. -/
theorem c9_from_data_amended_witness :
    Redditor.from_data (.str "spez") =
      .ok (some { name := some (.str "spez") }) ∧
    Redditor.from_data (.bool false) =
      .error (.valueError (invalidStrFieldMsg "name")) := by
  constructor
  · refine c9_from_data_amended.2.1 (.str "spez") (by decide) ?_
    intro h
    injection h with h2
    exact absurd h2 (by decide)
  · exact c9_from_data_amended.2.2.1 (.bool false) rfl
      (fun h => JSON.noConfusion h)

/-! ### C10: the _data name assertion -/

theorem redditorApply_name_isSome (kvs : List (String × JSON)) :
    ∀ obj : RedditorObj, obj.name.isSome = true →
      ((kvs.foldl redditorSetattr obj).name).isSome = true := by
  induction kvs with
  | nil => intro obj h; exact h
  | cons kv rest ih =>
    intro obj h
    simp only [List.foldl_cons]
    apply ih
    by_cases hk : kv.1 == "name"
    · simp [redditorSetattr, hk]
    · by_cases hk2 : kv.1 == "subreddit" <;>
        simp [redditorSetattr, hk, hk2, h]

theorem redditorApply_sets_name (kvs : List (String × JSON)) (v : JSON) :
    ∀ obj : RedditorObj, alookup kvs "name" = some v →
      ((kvs.foldl redditorSetattr obj).name).isSome = true := by
  induction kvs with
  | nil => intro obj h; simp [alookup] at h
  | cons kv rest ih =>
    intro obj h
    simp only [List.foldl_cons]
    by_cases hk : kv.1 == "name"
    · apply redditorApply_name_isSome
      simp [redditorSetattr, hk]
    · simp only [alookup, hk] at h
      exact ih _ h

/-- Counterexample for C10: routed through from_data, a non-empty dict
payload lacking the key `name` does not fail the assertion — the payload is
passed as the `name` argument (redditor.py line 74), the `if _data:` guard
skips the assert, and a Redditor carrying the dict as its name is
produced. -/
theorem c10_redditor_data_name_assert_counterexample :
    Redditor.from_data (.obj [("karma", .num 5)]) =
      .ok (some { name := some (.obj [("karma", .num 5)]) }) := rfl

/-- C10 as amended: for a non-empty raw-data payload supplied directly as
`_data`, Redditor construction fails the `Please file a bug with PRAW`
assertion exactly when the payload lacks the key `name`, and a payload
holding `name` passes the assertion and produces a Redditor; supplied via
from_data, the payload arrives as the `name` argument instead, the
assertion is skipped, and a non-empty dict payload constructs a Redditor
whose name is the dict. -/
theorem c10_redditor_data_name_assert_amended :
    ∀ kvs : List (String × JSON), kvs ≠ [] →
      (alookup kvs "name" = none →
        redditorInit none none (some kvs) =
          .error (.assertError "Please file a bug with PRAW.")) ∧
      (∀ v, alookup kvs "name" = some v →
        ∃ r, redditorInit none none (some kvs) = .ok r ∧
          r.name.isSome = true) ∧
      Redditor.from_data (.obj kvs) =
        .ok (some { name := some (.obj kvs) }) := by
  intro kvs hne
  have hisEmpty : kvs.isEmpty = false := by
    cases kvs
    · exact absurd rfl hne
    · rfl
  refine ⟨?_, ?_, ?_⟩
  · intro hnone
    simp [redditorInit, hisEmpty, hnone, optCount]
  · intro v hv
    have hname := redditorApply_sets_name kvs v {} hv
    refine ⟨kvs.foldl redditorSetattr {}, ?_, hname⟩
    simp [redditorInit, redditorBaseInit, redditorStrFieldCheck, hisEmpty, hv,
      optCount, hname]
  · exact from_data_truthy (.obj kvs) (by simp [truthyJ, hisEmpty]) rfl

/-- Witness for C10 at a payload without `name`, one with it, and the
from_data route. -/
theorem c10_redditor_data_name_assert_amended_witness :
    redditorInit none none (some [("karma", .num 5)]) =
      .error (.assertError "Please file a bug with PRAW.") ∧
    (∃ r, redditorInit none none (some [("name", .str "spez")]) = .ok r ∧
      r.name.isSome = true) ∧
    Redditor.from_data (.obj [("name", .str "spez")]) =
      .ok (some { name := some (.obj [("name", .str "spez")]) }) := by
  refine ⟨?_, ?_, ?_⟩
  · exact (c10_redditor_data_name_assert_amended [("karma", .num 5)]
      (by simp)).1 rfl
  · exact (c10_redditor_data_name_assert_amended [("name", .str "spez")]
      (by simp)).2.1 (.str "spez") rfl
  · exact (c10_redditor_data_name_assert_amended [("name", .str "spez")]
      (by simp)).2.2

/-! ### C1: exactly one identity input -/

theorem isTypeError_error_congr {α β : Type} (e : PrawError) :
    isTypeError (Except.error e : Except PrawError α) =
      isTypeError (Except.error e : Except PrawError β) := by
  cases e <;> rfl

theorem isTypeError_map_some {α β : Type} (e : Except PrawError α) (f : α → β) :
    isTypeError (e.map f) = isTypeError e := by
  cases e with
  | error pe => cases pe <;> rfl
  | ok a => rfl

theorem isUsageError_error_congr {α β : Type} (msg : String) (e : PrawError) :
    isUsageError msg (Except.error e : Except PrawError α) =
      isUsageError msg (Except.error e : Except PrawError β) := by
  cases e <;> rfl

theorem isUsageError_map_some {α β : Type} (msg : String)
    (e : Except PrawError α) (f : α → β) :
    isUsageError msg (e.map f) = isUsageError msg e := by
  cases e with
  | error pe => cases pe <;> rfl
  | ok a => rfl

theorem isUsageError_of_not_typeError {α : Type} (msg : String)
    (e : Except PrawError α) (h : isTypeError e = false) :
    isUsageError msg e = false := by
  cases e with
  | ok a => rfl
  | error pe => cases pe <;> first | rfl | simp [isTypeError] at h

theorem redditorStrFieldCheck_not_typeError (obj : RedditorObj) :
    isTypeError (redditorStrFieldCheck obj) = false := by
  unfold redditorStrFieldCheck
  split
  · rfl
  · split <;> rfl

theorem redditorBaseInit_not_typeError (obj : RedditorObj)
    (d : Option (List (String × JSON))) :
    isTypeError (redditorBaseInit obj d) = false := by
  cases d with
  | none => exact redditorStrFieldCheck_not_typeError _
  | some kvs => exact redditorStrFieldCheck_not_typeError _

theorem redditorInit_not_typeError (name fullname : Option JSON)
    (d : Option (List (String × JSON)))
    (h : optCount name + optCount fullname + optCount d = 1) :
    isTypeError (redditorInit name fullname d) = false := by
  have hc : (optCount name + optCount fullname + optCount d != 1) = false := by
    simp [h]
  unfold redditorInit
  rw [hc]
  cases d <;> simp only [Bool.false_eq_true, if_false] <;> split
  · rfl
  · exact redditorBaseInit_not_typeError _ _
  · rfl
  · exact redditorBaseInit_not_typeError _ _

theorem childrenValue_not_typeError (o : Option JSON) :
    isTypeError (childrenValue o) = false := by
  rcases o with _ | j
  · rfl
  · cases j <;> rfl

theorem childrenOfData_not_typeError (o : Option JSON) :
    isTypeError (childrenOfData o) = false := by
  rcases o with _ | j
  · rfl
  · cases j <;> try rfl
    exact childrenValue_not_typeError _

theorem objectify_not_typeError (v : JSON) :
    isTypeError (objectifyListingChildren v) = false := by
  cases v <;> try rfl
  exact childrenOfData_not_typeError _

theorem redditorInit_not_commentUsage (name fullname : Option JSON)
    (d : Option (List (String × JSON))) :
    isUsageError commentCountMsg (redditorInit name fullname d) = false := by
  unfold redditorInit
  rcases hc : (optCount name + optCount fullname + optCount d != 1) with _ | _
  · cases d <;> simp only [Bool.false_eq_true, if_false] <;> split
    · rfl
    · exact isUsageError_of_not_typeError _ _
        (redditorBaseInit_not_typeError _ _)
    · rfl
    · exact isUsageError_of_not_typeError _ _
        (redditorBaseInit_not_typeError _ _)
  · show isUsageError commentCountMsg
      (Except.error (.typeError redditorCountMsg)) = false
    decide

theorem from_data_not_commentUsage (data : JSON) :
    isUsageError commentCountMsg (Redditor.from_data data) = false := by
  unfold Redditor.from_data
  split
  · rfl
  · rw [isUsageError_map_some]
    exact redditorInit_not_commentUsage _ _ _

theorem commentSetattr_not_commentUsage (obj : CommentObj)
    (kv : String × JSON) :
    isUsageError commentCountMsg (commentSetattr obj kv) = false := by
  unfold commentSetattr
  split
  · rcases h : Redditor.from_data kv.2 with e | r
    · have h2 := from_data_not_commentUsage kv.2
      rw [h] at h2
      exact (isUsageError_error_congr _ e).trans h2
    · rfl
  · split
    · split
      · rfl
      · rcases h : objectifyListingChildren kv.2 with e | cs
        · have h2 := objectify_not_typeError kv.2
          rw [h] at h2
          exact (isUsageError_error_congr _ e).trans
            (isUsageError_of_not_typeError _ _ h2)
        · rfl
    · split
      · rfl
      · split <;> rfl

theorem applyCommentAttrs_not_commentUsage (kvs : List (String × JSON)) :
    ∀ obj, isUsageError commentCountMsg (applyCommentAttrs obj kvs) = false := by
  induction kvs with
  | nil => intro obj; rfl
  | cons kv rest ih =>
    intro obj
    unfold applyCommentAttrs
    rcases h : commentSetattr obj kv with e | o
    · have h2 := commentSetattr_not_commentUsage obj kv
      rw [h] at h2
      exact h2
    · exact ih o

theorem commentStrFieldCheck_not_typeError (obj : CommentObj) :
    isTypeError (commentStrFieldCheck obj) = false := by
  unfold commentStrFieldCheck
  split <;> rfl

theorem commentBaseInit_not_commentUsage (obj : CommentObj)
    (d : Option (List (String × JSON))) :
    isUsageError commentCountMsg (commentBaseInit obj d) = false := by
  cases d with
  | none =>
    exact isUsageError_of_not_typeError _ _
      (commentStrFieldCheck_not_typeError _)
  | some kvs =>
    simp only [commentBaseInit]
    rcases h : applyCommentAttrs obj kvs with e | o
    · have h2 := applyCommentAttrs_not_commentUsage kvs obj
      rw [h] at h2
      exact h2
    · exact isUsageError_of_not_typeError _ _
        (commentStrFieldCheck_not_typeError _)

theorem urlParts_shape (url : String) :
    (∃ parts, urlParts url = .ok parts) ∨
      urlParts url = .error (.invalidURL url) := by
  unfold urlParts
  cases afterScheme url.toList with
  | none => exact Or.inr rfl
  | some rest =>
    dsimp only
    split
    · exact Or.inr rfl
    · exact Or.inl ⟨_, rfl⟩

theorem id_from_url_not_typeError (url : String) :
    isTypeError (Comment.id_from_url url) = false := by
  unfold Comment.id_from_url
  rcases urlParts_shape url with ⟨parts, hp⟩ | hp <;> rw [hp]
  · dsimp only
    split
    · rfl
    · split <;> rfl
  · rfl

theorem commentIdentityStep_not_typeError (id url : Option String) :
    isTypeError (commentIdentityStep id url) = false := by
  unfold commentIdentityStep
  split
  · rfl
  · split
    · rw [isTypeError_map_some]
      exact id_from_url_not_typeError _
    · rfl

theorem commentInit_not_commentUsage (id url : Option String)
    (d : Option (List (String × JSON)))
    (h : optCount id + optCount url + optCount d = 1) :
    isUsageError commentCountMsg (commentInit id url d) = false := by
  unfold commentInit
  split
  · rename_i hcond
    exact absurd hcond (by simp [h])
  · rcases hs : commentIdentityStep id url with e | obj
    · have h2 := commentIdentityStep_not_typeError id url
      rw [hs] at h2
      exact isUsageError_of_not_typeError _ _ h2
    · exact commentBaseInit_not_commentUsage _ _

/-- Counterexample for C1: a Comment constructed with exactly one identity
input (a _data payload whose author is Python None) still surfaces a usage
error of TypeError kind — the author merge calls Redditor.from_data, whose
`cls(reddit, None)` supplies zero of the Redditor identity inputs and
raises the nested Redditor count TypeError (redditor.py lines 148-150). -/
theorem c1_exactly_one_identity_input_counterexample :
    optCount (none : Option String) + optCount (none : Option String) +
      optCount (some [("id", JSON.str "x"), ("author", JSON.null)]) = 1 ∧
    commentInit none none (some [("id", .str "x"), ("author", .null)]) =
      .error (.typeError redditorCountMsg) ∧
    isTypeError (commentInit none none
      (some [("id", .str "x"), ("author", .null)])) = true :=
  ⟨rfl, rfl, rfl⟩

/-- C1 as amended: each constructor raises its own count-checking usage
error (identified by its message) exactly when the number of provided
mutually exclusive identity inputs differs from one, covering counts 0, 2
and 3; with exactly one input that constructor's own count error is never
raised — for Redditor no TypeError at all, while a Comment call may still
propagate the nested Redditor count TypeError out of a merged _data
payload. -/
theorem c1_exactly_one_identity_input_amended :
    ∀ (id url : Option String) (dc : Option (List (String × JSON)))
      (name fullname : Option JSON) (dr : Option (List (String × JSON))),
      (isUsageError commentCountMsg (commentInit id url dc) = true ↔
        optCount id + optCount url + optCount dc ≠ 1) ∧
      (isTypeError (redditorInit name fullname dr) = true ↔
        optCount name + optCount fullname + optCount dr ≠ 1) := by
  intro id url dc name fullname dr
  constructor
  · constructor
    · intro h hc
      have h2 := commentInit_not_commentUsage id url dc hc
      rw [h2] at h
      exact absurd h (by decide)
    · intro hc
      unfold commentInit
      have hb : (optCount id + optCount url + optCount dc != 1) = true := by
        simpa [bne_iff_ne] using hc
      rw [hb]
      simp [isUsageError]
  · constructor
    · intro h hc
      have h2 := redditorInit_not_typeError name fullname dr hc
      rw [h2] at h
      exact absurd h (by decide)
    · intro hc
      unfold redditorInit
      have hb : (optCount name + optCount fullname + optCount dr != 1) = true := by
        simpa [bne_iff_ne] using hc
      rw [hb]
      rfl

/-- Witness for C1 at the argument combinations of
test_construct_failure. -/
theorem c1_exactly_one_identity_input_amended_witness :
    isUsageError commentCountMsg (commentInit none none none) = true ∧
    isUsageError commentCountMsg
      (commentInit (some "dummy") (some "dummy") none) = true ∧
    isUsageError commentCountMsg
      (commentInit (some "dummy") (some "dummy") (some [("id", .str "d")])) =
      true ∧
    isUsageError commentCountMsg (commentInit (some "dummy") none none) =
      false ∧
    isTypeError (redditorInit none none none) = true ∧
    isTypeError (redditorInit (some (.str "spez")) none none) = false := by
  refine ⟨?_, ?_, ?_, ?_, ?_, ?_⟩
  · exact (c1_exactly_one_identity_input_amended none none none
      none none none).1.mpr (by decide)
  · exact (c1_exactly_one_identity_input_amended (some "dummy") (some "dummy")
      none none none none).1.mpr (by decide)
  · exact (c1_exactly_one_identity_input_amended (some "dummy") (some "dummy")
      (some [("id", .str "d")]) none none none).1.mpr (by decide)
  · rcases hb : isUsageError commentCountMsg
        (commentInit (some "dummy") none none) with _ | _
    · rfl
    · exact absurd ((c1_exactly_one_identity_input_amended (some "dummy")
        none none none none none).1.mp hb) (by decide)
  · exact (c1_exactly_one_identity_input_amended none none none
      none none none).2.mpr (by decide)
  · rcases hb : isTypeError (redditorInit (some (.str "spez")) none none)
      with _ | _
    · rfl
    · exact absurd ((c1_exactly_one_identity_input_amended none none none
        (some (.str "spez")) none none).2.mp hb) (by decide)

/-! ### C6: parent resolution -/

theorem commentInit_plain_id (rid : String) (h : rid ≠ "") :
    commentInit (some rid) none none =
      .ok { id := some (.str rid), fetched := false } := by
  have hstep : commentIdentityStep (some rid) none =
      .ok { id := some (.str rid), fetched := false } := by
    unfold commentIdentityStep
    have ht : truthyS (some rid) = true := by simp [truthyS, h]
    simp [ht]
  simp [commentInit, optCount, hstep, commentBaseInit, commentStrFieldCheck]

/-- C6: `parent()` returns the owning submission when `parent_id` equals its
fullname; otherwise, when `parent_id` is a key of the submission comment
index, the already-materialized comment stored there; otherwise a newly
constructed shallow (unfetched) Comment whose id is `parent_id` stripped of
its type prefix, scoped to the same submission.  All three branches are pure
functions of the local state: no request is made. -/
theorem c6_parent_resolution :
    ∀ (parent_id : String) (sub : SubmissionM),
      (parent_id = sub.fullname →
        commentParent parent_id sub = .ok (.ofSubmission sub)) ∧
      (parent_id ≠ sub.fullname →
        ∀ c, alookup sub.comments_by_id parent_id = some c →
          commentParent parent_id sub = .ok (.existing c)) ∧
      (parent_id ≠ sub.fullname →
        alookup sub.comments_by_id parent_id = none →
        ∀ rid, splitFirstRest '_' parent_id = some rid → rid ≠ "" →
          commentParent parent_id sub =
            .ok (.shallow { id := some (.str rid), fetched := false } sub)) := by
  intro parent_id sub
  refine ⟨?_, ?_, ?_⟩
  · intro h
    simp [commentParent, h]
  · intro h c hc
    have hbeq : (parent_id == sub.fullname) = false := beq_eq_false_iff_ne.mpr h
    simp [commentParent, hbeq, hc]
  · intro h hn rid hsplit hrid
    have hbeq : (parent_id == sub.fullname) = false := beq_eq_false_iff_ne.mpr h
    simp [commentParent, hbeq, hn, hsplit, commentInit_plain_id rid hrid,
      Except.map]

/-- Witness for C6 at a concrete submission with one indexed comment. -/
theorem c6_parent_resolution_witness :
    commentParent "t3_2gmzqe" ⟨"2gmzqe", [("t1_aaa", .comment "aaa" [] [])]⟩ =
      .ok (.ofSubmission ⟨"2gmzqe", [("t1_aaa", .comment "aaa" [] [])]⟩) ∧
    commentParent "t1_aaa" ⟨"2gmzqe", [("t1_aaa", .comment "aaa" [] [])]⟩ =
      .ok (.existing (.comment "aaa" [] [])) ∧
    commentParent "t1_bbb" ⟨"2gmzqe", [("t1_aaa", .comment "aaa" [] [])]⟩ =
      .ok (.shallow { id := some (.str "bbb"), fetched := false }
        ⟨"2gmzqe", [("t1_aaa", .comment "aaa" [] [])]⟩) := by
  refine ⟨?_, ?_, ?_⟩
  · exact (c6_parent_resolution "t3_2gmzqe"
      ⟨"2gmzqe", [("t1_aaa", .comment "aaa" [] [])]⟩).1 rfl
  · exact (c6_parent_resolution "t1_aaa"
      ⟨"2gmzqe", [("t1_aaa", .comment "aaa" [] [])]⟩).2.1 (by decide)
      (.comment "aaa" [] []) rfl
  · exact (c6_parent_resolution "t1_bbb"
      ⟨"2gmzqe", [("t1_aaa", .comment "aaa" [] [])]⟩).2.2 (by decide) rfl
      "bbb" rfl (by decide)

/-! ### Tree measures and rewriting equations -/

mutual
/-- Number of nodes of a tree, the measure for the stack traversals. -/
def CTree.tsize : CTree → Nat
  | .comment _ _ rs => 1 + tsizeL rs
  | .more _ => 1

/-- Number of nodes of a list of trees. -/
def tsizeL : List CTree → Nat
  | [] => 0
  | t :: ts => t.tsize + tsizeL ts
end

theorem tsizeL_cons (t : CTree) (ts : List CTree) :
    tsizeL (t :: ts) = t.tsize + tsizeL ts := rfl

theorem tsizeL_cons_pos (t : CTree) (ts : List CTree) :
    0 < tsizeL (t :: ts) := by
  cases t <;> simp [tsizeL, CTree.tsize]

theorem allNodesL_nil : allNodesL [] = [] := rfl

theorem allNodesL_cons (t : CTree) (ts : List CTree) :
    allNodesL (t :: ts) = t.allNodes ++ allNodesL ts := rfl

theorem allNodes_more (i : String) : (CTree.more i).allNodes = [.more i] := rfl

theorem allNodes_comment (i : String) (a : List (String × JSON))
    (rs : List CTree) :
    (CTree.comment i a rs).allNodes = .comment i a rs :: allNodesL rs := rfl

theorem commentNodesL_nil : commentNodesL [] = [] := rfl

theorem commentNodesL_cons (t : CTree) (ts : List CTree) :
    commentNodesL (t :: ts) = t.commentNodes ++ commentNodesL ts := rfl

theorem commentNodes_more (i : String) : (CTree.more i).commentNodes = [] := rfl

theorem commentNodes_comment (i : String) (a : List (String × JSON))
    (rs : List CTree) :
    (CTree.comment i a rs).commentNodes =
      .comment i a rs :: commentNodesL rs := rfl

theorem assignL_nil (sub : SubmissionM) : assignSubmissionL sub [] = sub := rfl

theorem assignL_cons (sub : SubmissionM) (t : CTree) (ts : List CTree) :
    assignSubmissionL sub (t :: ts) =
      assignSubmissionL (assignSubmission sub t) ts := rfl

theorem assign_more (sub : SubmissionM) (i : String) :
    assignSubmission sub (.more i) = sub := rfl

theorem assign_comment (sub : SubmissionM) (i : String)
    (a : List (String × JSON)) (rs : List CTree) :
    assignSubmission sub (.comment i a rs) =
      assignSubmissionL
        { sub with comments_by_id :=
            (commentFullname i, .comment i a rs) :: sub.comments_by_id } rs :=
  rfl

/-! ### The submission-setter index lemma (C8, C5) -/

/-- Re-parenting a list of trees to a submission: existing index keys are
kept, the fullname of every comment node of the trees is registered, and
bindings whose key is no comment node fullname are untouched. -/
theorem assignL_spec :
    ∀ (N : Nat) (l : List CTree), tsizeL l ≤ N → ∀ sub : SubmissionM,
      (∀ k, k ∈ akeys sub.comments_by_id →
        k ∈ akeys ((assignSubmissionL sub l).comments_by_id)) ∧
      (∀ n ∈ commentNodesL l,
        commentFullname n.nid ∈
          akeys ((assignSubmissionL sub l).comments_by_id)) ∧
      (∀ k, (∀ n ∈ commentNodesL l, k ≠ commentFullname n.nid) →
        alookup ((assignSubmissionL sub l).comments_by_id) k =
          alookup sub.comments_by_id k) := by
  intro N
  induction N with
  | zero =>
    intro l hl sub
    cases l with
    | nil =>
      exact ⟨fun k hk => hk, fun n hn => absurd hn (by simp [commentNodesL_nil]),
        fun k _ => rfl⟩
    | cons t ts =>
      exact absurd hl (by have := tsizeL_cons_pos t ts; omega)
  | succ N ih =>
    intro l hl sub
    cases l with
    | nil =>
      exact ⟨fun k hk => hk, fun n hn => absurd hn (by simp [commentNodesL_nil]),
        fun k _ => rfl⟩
    | cons t ts =>
      cases t with
      | more i =>
        have hts : tsizeL ts ≤ N := by
          have h1 := hl
          rw [tsizeL_cons] at h1
          simp [CTree.tsize] at h1
          omega
        have hmain := ih ts hts sub
        rw [assignL_cons, assign_more]
        refine ⟨hmain.1, ?_, ?_⟩
        · intro n hn
          rw [commentNodesL_cons, commentNodes_more] at hn
          simp only [List.nil_append] at hn
          exact hmain.2.1 n hn
        · intro k hk
          refine hmain.2.2 k ?_
          intro n hn
          refine hk n ?_
          rw [commentNodesL_cons, commentNodes_more]
          simpa using hn
      | comment i a rs =>
        have hsplit : tsizeL rs ≤ N ∧ tsizeL ts ≤ N := by
          have h1 := hl
          rw [tsizeL_cons] at h1
          simp [CTree.tsize] at h1
          omega
        set sub2 : SubmissionM :=
          { sub with comments_by_id :=
              (commentFullname i, .comment i a rs) :: sub.comments_by_id }
          with hsub2
        have hrs := ih rs hsplit.1 sub2
        have hts := ih ts hsplit.2 (assignSubmissionL sub2 rs)
        rw [assignL_cons, assign_comment]
        have hmemNode : ∀ n, n ∈ commentNodesL (CTree.comment i a rs :: ts) ↔
            (n = .comment i a rs ∨ n ∈ commentNodesL rs ∨
              n ∈ commentNodesL ts) := by
          intro n
          rw [commentNodesL_cons, commentNodes_comment]
          simp [or_assoc]
        refine ⟨?_, ?_, ?_⟩
        · intro k hk
          refine hts.1 k (hrs.1 k ?_)
          rw [hsub2]
          simp [akeys]
          right
          simpa [akeys] using hk
        · intro n hn
          rcases (hmemNode n).mp hn with h | h | h
          · subst h
            refine hts.1 _ (hrs.1 _ ?_)
            rw [hsub2]
            simp [akeys, CTree.nid]
          · exact hts.1 _ (hrs.2.1 n h)
          · exact hts.2.1 n h
        · intro k hk
          have hk1 : k ≠ commentFullname i := by
            have := hk (.comment i a rs) ((hmemNode _).mpr (Or.inl rfl))
            simpa [CTree.nid] using this
          have hk2 : ∀ n ∈ commentNodesL rs, k ≠ commentFullname n.nid := by
            intro n hn
            exact hk n ((hmemNode n).mpr (Or.inr (Or.inl hn)))
          have hk3 : ∀ n ∈ commentNodesL ts, k ≠ commentFullname n.nid := by
            intro n hn
            exact hk n ((hmemNode n).mpr (Or.inr (Or.inr hn)))
          rw [hts.2.2 k hk3, hrs.2.2 k hk2, hsub2]
          simp [alookup, beq_eq_false_iff_ne.mpr (fun h => hk1 h.symm)]

/-! ### C8: the submission setter and the comment index -/

/-- C8: assigning a submission to a comment registers that comment in the
submission index under its fullname and recursively registers every
materialized reply (every comment node of the tree ends up keyed); when the
registered fullnames do not collide, the root is looked up as exactly the
stored tree; and a comment reachable through the index is returned by
`parent()` as that same stored object, by a pure function making no
request. -/
theorem c8_submission_setter_index :
    ∀ (sub : SubmissionM) (i : String) (a : List (String × JSON))
      (rs : List CTree),
      (∀ n ∈ (CTree.comment i a rs).commentNodes,
        commentFullname n.nid ∈
          akeys ((assignSubmission sub (.comment i a rs)).comments_by_id)) ∧
      ((∀ n ∈ commentNodesL rs, commentFullname i ≠ commentFullname n.nid) →
        alookup ((assignSubmission sub (.comment i a rs)).comments_by_id)
            (commentFullname i) = some (.comment i a rs)) ∧
      (∀ (sub2 : SubmissionM) (parent_id : String) (c : CTree),
        parent_id ≠ sub2.fullname →
        alookup sub2.comments_by_id parent_id = some c →
        commentParent parent_id sub2 = .ok (.existing c)) := by
  intro sub i a rs
  refine ⟨?_, ?_, ?_⟩
  · intro n hn
    have h := (assignL_spec (tsizeL [CTree.comment i a rs])
      [CTree.comment i a rs] (le_refl _) sub).2.1 n
    rw [commentNodesL_cons, commentNodesL_nil, List.append_nil] at h
    exact h hn
  · intro hnc
    rw [assign_comment]
    have h := (assignL_spec (tsizeL rs) rs (le_refl _)
      { sub with comments_by_id :=
          (commentFullname i, .comment i a rs) :: sub.comments_by_id }).2.2
    rw [h (commentFullname i) hnc]
    simp [alookup]
  · intro sub2 parent_id c h hc
    have hbeq : (parent_id == sub2.fullname) = false := beq_eq_false_iff_ne.mpr h
    simp [commentParent, hbeq, hc]

/-- Witness for C8 at a two-level tree with a MoreComments placeholder. -/
theorem c8_submission_setter_index_witness :
    (commentFullname "r1" ∈
      akeys ((assignSubmission ⟨"s", []⟩
        (.comment "p" [] [.comment "r1" [] [], .more "m"])).comments_by_id)) ∧
    (alookup ((assignSubmission ⟨"s", []⟩
        (.comment "p" [] [.comment "r1" [] [], .more "m"])).comments_by_id)
      (commentFullname "p") =
      some (.comment "p" [] [.comment "r1" [] [], .more "m"])) ∧
    (commentParent "t1_r1" (assignSubmission ⟨"s", []⟩
        (.comment "p" [] [.comment "r1" [] [], .more "m"])) =
      .ok (.existing (.comment "r1" [] []))) := by
  have big := c8_submission_setter_index ⟨"s", []⟩ "p" []
    [.comment "r1" [] [], .more "m"]
  refine ⟨?_, ?_, ?_⟩
  · refine big.1 (.comment "r1" [] []) ?_
    rw [commentNodes_comment]
    simp [commentNodesL_cons, commentNodes_comment, commentNodes_more,
      commentNodesL_nil]
  · refine big.2.1 ?_
    intro n hn
    rw [commentNodesL_cons, commentNodes_comment] at hn
    simp [commentNodesL_cons, commentNodes_more, commentNodesL_nil] at hn
    subst hn
    simp [CTree.nid, commentFullname]
  · exact big.2.2 _ "t1_r1" (.comment "r1" [] []) (by decide) rfl

/-! ### C5: refresh -/

theorem searchB_nil (sid : String) : searchB sid [] = none := rfl

theorem searchB_cons (sid : String) (t : CTree) (ts : List CTree) :
    searchB sid (t :: ts) =
      (match searchB sid ts with
       | some r => some r
       | none => searchT sid t) := rfl

/-- Soundness and exhaustiveness of the pop-from-end search: a found node
matches the wanted id and lies in the forest, and a failed search means no
node of the forest matches. -/
theorem searchB_spec :
    ∀ (N : Nat) (l : List CTree), tsizeL l ≤ N → ∀ sid : String,
      (∀ n, searchB sid l = some n → n.nid = sid ∧ n ∈ allNodesL l) ∧
      (searchB sid l = none → ∀ n ∈ allNodesL l, n.nid ≠ sid) := by
  intro N
  induction N with
  | zero =>
    intro l hl sid
    cases l with
    | nil =>
      exact ⟨fun n hn => by simp [searchB_nil] at hn,
        fun _ n hn => by simp [allNodesL_nil] at hn⟩
    | cons t ts =>
      exact absurd hl (by have := tsizeL_cons_pos t ts; omega)
  | succ N ih =>
    intro l hl sid
    cases l with
    | nil =>
      exact ⟨fun n hn => by simp [searchB_nil] at hn,
        fun _ n hn => by simp [allNodesL_nil] at hn⟩
    | cons t ts =>
      have hts : tsizeL ts ≤ N := by
        have h1 := hl
        rw [tsizeL_cons] at h1
        have := tsizeL_cons_pos t []
        cases t <;> simp [CTree.tsize] at h1 ⊢ <;> omega
      have ihts := ih ts hts sid
      rw [searchB_cons]
      rcases hb : searchB sid ts with _ | r
      · -- the later elements hold no match: the head is inspected
        cases t with
        | more i =>
          rcases hmatch : (i == sid) with _ | _
          · constructor
            · intro n hn
              simp [searchT, hmatch] at hn
            · intro _ n hn
              rw [allNodesL_cons, allNodes_more] at hn
              rcases List.mem_append.mp hn with h1 | h1
              · have : n = .more i := by simpa using h1
                subst this
                simpa [CTree.nid] using hmatch
              · exact ihts.2 hb n h1
          · constructor
            · intro n hn
              simp [searchT, hmatch] at hn
              subst hn
              refine ⟨by simpa [CTree.nid] using hmatch, ?_⟩
              rw [allNodesL_cons, allNodes_more]
              simp
            · intro hcontra
              simp [searchT, hmatch] at hcontra
        | comment i a rs =>
          have hrs : tsizeL rs ≤ N := by
            have h1 := hl
            rw [tsizeL_cons] at h1
            simp [CTree.tsize] at h1
            omega
          have ihrs := ih rs hrs sid
          rcases hmatch : (i == sid) with _ | _
          · -- no match at the head node: descend into the replies
            constructor
            · intro n hn
              simp [searchT, hmatch] at hn
              have h2 := (ihrs.1 n hn)
              refine ⟨h2.1, ?_⟩
              rw [allNodesL_cons, allNodes_comment]
              simp [h2.2]
            · intro hcontra n hn
              simp [searchT, hmatch] at hcontra
              rw [allNodesL_cons, allNodes_comment] at hn
              rcases List.mem_append.mp hn with h1 | h1
              · rcases List.mem_cons.mp h1 with h2 | h2
                · subst h2
                  simpa [CTree.nid] using hmatch
                · exact ihrs.2 hcontra n h2
              · exact ihts.2 hb n h1
          · constructor
            · intro n hn
              simp [searchT, hmatch] at hn
              subst hn
              refine ⟨by simpa [CTree.nid] using hmatch, ?_⟩
              rw [allNodesL_cons, allNodes_comment]
              simp
            · intro hcontra
              simp [searchT, hmatch] at hcontra
      · -- a match among the later (deeper-in-the-stack) elements wins
        constructor
        · intro n hn
          have h2 := ihts.1 r hb
          cases hn
          refine ⟨h2.1, ?_⟩
          rw [allNodesL_cons]
          exact List.mem_append.mpr (Or.inr h2.2)
        · intro hcontra
          cases hcontra

/-- C5: refresh asks for a context of 100; it raises the missing-comment
ClientException when the returned list is empty or no node of the returned
forest carries this comment's id; on success the found node (reached by the
pop-from-end traversal) has this comment's id and lies in the forest, its
attributes win in the merged dict while untouched keys keep their old value,
an already-set `_submission` is preserved, and every returned comment node
is re-parented into the owning submission's index. -/
theorem c5_refresh_search_merge_reparent :
    ∀ (self : RefreshSelf) (sub : SubmissionM) (comment_list : List CTree),
      (("context", JSON.num 100) ∈
        refreshParams self.reply_limit self.reply_sort) ∧
      (comment_list = [] →
        refresh self sub comment_list =
          .error (.clientError missingCommentMessage)) ∧
      ((∀ n ∈ allNodesL comment_list, n.nid ≠ self.id) →
        refresh self sub comment_list =
          .error (.clientError missingCommentMessage)) ∧
      (∀ out, refresh self sub comment_list = .ok out →
        out.found.nid = self.id ∧
        out.found ∈ allNodesL comment_list ∧
        (∀ k v, alookup out.found.cattrs k = some v →
          alookup out.mergedDict k = some v) ∧
        (∀ k, alookup out.found.cattrs k = none →
          alookup out.mergedDict k = alookup self.dict k) ∧
        out.keepOwnSubmission = self.hasSubmission ∧
        (∀ n ∈ commentNodesL comment_list,
          commentFullname n.nid ∈ akeys out.newIndex.comments_by_id)) := by
  intro self sub comment_list
  refine ⟨?_, ?_, ?_, ?_⟩
  · simp [refreshParams]
  · intro h
    subst h
    rfl
  · intro hno
    cases comment_list with
    | nil => rfl
    | cons t ts =>
      rcases hb : searchB self.id (t :: ts) with _ | c
      · simp [refresh, hb]
      · exfalso
        have h2 := (searchB_spec (tsizeL (t :: ts)) (t :: ts) (le_refl _)
          self.id).1 c hb
        exact hno c h2.2 h2.1
  · intro out hout
    cases comment_list with
    | nil => simp [refresh] at hout
    | cons t ts =>
      rcases hb : searchB self.id (t :: ts) with _ | c
      · simp [refresh, hb] at hout
      · have hsearch := (searchB_spec (tsizeL (t :: ts)) (t :: ts) (le_refl _)
          self.id).1 c hb
        have hout2 : out = { found := c
                             mergedDict := dictUpdate self.dict c.cattrs
                             keepOwnSubmission := self.hasSubmission
                             newIndex := assignSubmissionL sub (t :: ts) } := by
          simp [refresh, hb] at hout
          exact hout.symm
        subst hout2
        refine ⟨hsearch.1, hsearch.2, ?_, ?_, rfl, ?_⟩
        · intro k v hk
          exact alookup_append_some _ _ k v hk
        · intro k hk
          exact alookup_append_none _ _ k hk
        · intro n hn
          exact (assignL_spec (tsizeL (t :: ts)) (t :: ts) (le_refl _)
            sub).2.1 n hn

/-- Witness for C5 at a nested returned forest holding the wanted comment
two levels down, next to a MoreComments placeholder. -/
theorem c5_refresh_witness :
    (refresh ⟨"cklhv0f", [("old", .null)], true, none, none, none⟩
      ⟨"2gmzqe", []⟩ [] =
      .error (.clientError missingCommentMessage)) ∧
    ∃ out,
      refresh ⟨"cklhv0f", [("old", .null)], true, none, none, none⟩
          ⟨"2gmzqe", []⟩
          [.comment "top" [("x", .num 1)]
            [.more "m1", .comment "cklhv0f" [("score", .num 5)] []]] =
        .ok out ∧
      out.found.nid = "cklhv0f" ∧
      out.keepOwnSubmission = true ∧
      commentFullname "top" ∈ akeys out.newIndex.comments_by_id := by
  constructor
  · exact (c5_refresh_search_merge_reparent
      ⟨"cklhv0f", [("old", .null)], true, none, none, none⟩
      ⟨"2gmzqe", []⟩ []).2.1 rfl
  · have h := (c5_refresh_search_merge_reparent
      ⟨"cklhv0f", [("old", .null)], true, none, none, none⟩
      ⟨"2gmzqe", []⟩
      [.comment "top" [("x", .num 1)]
        [.more "m1", .comment "cklhv0f" [("score", .num 5)] []]]).2.2.2 _ rfl
    refine ⟨_, rfl, h.1, h.2.2.2.2.1, ?_⟩
    refine h.2.2.2.2.2 (.comment "top" [("x", .num 1)]
      [.more "m1", .comment "cklhv0f" [("score", .num 5)] []]) ?_
    rw [commentNodesL_cons, commentNodes_comment]
    simp

end Praw
